import Mathlib

/-!
# comp-save: migration script and Truffle configuration

A shallow embedding of the two JavaScript modules of the repository:

* `migrations/2_deploy_contracts.js`: the constants `kovanDAI`, `kovan_cDAI` and the
  exported migration function, which performs one method call on the deployer it is given;
* `truffle-config.js`: the exported configuration object with its single network profile
  and the provider arrow function.

Everything the modules call into (the deployer object, `artifacts.require`, the
`HDWalletProvider` class, `dotenv`) is external to the repository and is taken as a
parameter with arbitrary behaviour.  Effects are made explicit: every external call is
appended to a call log that is threaded through the run together with the external state.
-/

namespace CompSave

/-! ## Values and external collaborators -/

/-- JavaScript values that occur in the two modules. `ref` is a handle on an object owned
by an external library (a contract artifact, a provider instance, a promise still
pending). `promiseFulfilled value` and `promiseRejected reason` are promises by how they
settle: a call that returns `promiseRejected reason` has returned normally, and its
failure reaches only code that awaits, chains on or returns the promise. -/
inductive JSValue where
  | undefined
  | bool (b : Bool)
  | num (n : Int)
  | str (s : String)
  | ref (id : Nat)
  | promiseFulfilled (value : JSValue)
  | promiseRejected (reason : JSValue)
  deriving DecidableEq, Repr

/-- One call made on an external collaborator: the property that was called and the
argument list, in order. -/
structure Invocation where
  method : String
  args : List JSValue
  deriving DecidableEq, Repr

/-- The outcome of running a piece of code: it either throws (`Except.error`) or returns a
value, and leaves behind the external state and the log of external calls. -/
structure Outcome (σ ε : Type) where
  result : Except ε JSValue
  state : σ
  log : List Invocation

/-- The deployer object Truffle hands to a migration. Nothing about it is fixed by the
repository: calling property `method` with `args` in external state `σ` either throws or
returns some value (a promise, for the deployer of Truffle, which queues the deployment
and reports its failure by rejecting), and may change the state. -/
structure Deployer (σ ε : Type) where
  invoke : String → List JSValue → σ → Except ε JSValue × σ

/-- The evaluation of `obj.method(args)` on a deployer: the call is performed and logged. -/
def callMethod {σ ε : Type} (d : Deployer σ ε) (method : String) (args : List JSValue)
    (st : σ) (log : List Invocation) : Outcome σ ε :=
  let r := d.invoke method args st
  { result := r.1, state := r.2, log := log ++ [⟨method, args⟩] }

/-! ## `migrations/2_deploy_contracts.js` -/

/-- The source line `const kovanDAI = "0x4F96Fe3b7A6Cf9725f59d353F723c1bDb64CA6Aa";`. -/
def kovanDAI : String := "0x4F96Fe3b7A6Cf9725f59d353F723c1bDb64CA6Aa"

/-- The source line `const kovan_cDAI = "0xf0d0eb522cfa50b716b3b1604c4f0fa6f04376ad";`. -/
def kovan_cDAI : String := "0xf0d0eb522cfa50b716b3b1604c4f0fa6f04376ad"

/-- The source line `const CompTest = artifacts.require("CompTest");`, with the global
`artifacts.require` of the deployment tool taken as the parameter `artifactsRequire`. -/
def CompTest (artifactsRequire : String → JSValue) : JSValue :=
  artifactsRequire "CompTest"

/-- The exported function
`(deployer) => { deployer.deploy(CompTest, kovanDAI, kovan_cDAI); }`.
The body is one expression statement: an exception thrown by the call propagates, and the
value the call returns is dropped (no `return`, `await` or `.then` or `.catch` on it),
the function itself returning `undefined`. -/
def migration {σ ε : Type} (artifactsRequire : String → JSValue) (deployer : Deployer σ ε)
    (st : σ) (log : List Invocation) : Outcome σ ε :=
  let o := callMethod deployer "deploy"
    [CompTest artifactsRequire, .str kovanDAI, .str kovan_cDAI] st log
  match o.result with
  | .error e => { result := .error e, state := o.state, log := o.log }
  | .ok _ => { result := .ok .undefined, state := o.state, log := o.log }

/-! ## Address syntax -/

/-- A hexadecimal digit: `0-9`, `a-f` or `A-F`. -/
def isHexDigit (c : Char) : Bool :=
  ('0' ≤ c && c ≤ '9') || ('a' ≤ c && c ≤ 'f') || ('A' ≤ c && c ≤ 'F')

/-! ## `truffle-config.js` -/

/-- The global `process.env`: a variable is set to a string or is absent. -/
abbrev ProcessEnv := String → Option String

/-- The evaluation of `process.env.NAME`: the string when the variable is set, and
`undefined` when it is not. -/
def ProcessEnv.get (env : ProcessEnv) (name : String) : JSValue :=
  match env name with
  | some v => .str v
  | none => .undefined

/-- The class bound by `const HDWalletProvider = require("@truffle/hdwallet-provider");`.
Its constructor belongs to the library: on an argument list it throws or returns the new
instance, and may change the external state. -/
structure ProviderClass (σ ε : Type) where
  construct : List JSValue → σ → Except ε JSValue × σ

/-- The evaluation of `new HDWalletProvider(args)`: the constructor runs and the
construction is logged. -/
def newHDWalletProvider {σ ε : Type} (cls : ProviderClass σ ε) (args : List JSValue)
    (st : σ) (log : List Invocation) : Outcome σ ε :=
  let r := cls.construct args st
  { result := r.1, state := r.2, log := log ++ [⟨"new HDWalletProvider", args⟩] }

/-- The shape of a network profile of the configuration object. `provider` is a function
of no arguments; its run reads the global `process.env` of the moment it is invoked. -/
structure NetworkProfile (σ ε : Type) where
  skipDryRun : Bool
  host : String
  port : Nat
  network_id : String
  provider : ProcessEnv → σ → List Invocation → Outcome σ ε

/-- The shape of the exported configuration: `networks` is a record, kept as the list of
its keys and values in source order. -/
structure TruffleConfig (σ ε : Type) where
  networks : List (String × NetworkProfile σ ε)

/-- The object literal exported by `truffle-config.js`. The arrow function under
`provider` is stored unevaluated; its body is
`new HDWalletProvider(process.env.PRIV_KEY_DEPLOY, "http://127.0.0.1:8545")`. -/
def truffleConfig {σ ε : Type} (HDWalletProvider : ProviderClass σ ε) : TruffleConfig σ ε :=
  { networks :=
      [("test",
        { skipDryRun := true,
          host := "127.0.0.1",
          port := 8545,
          network_id := "*",
          provider := fun env st log =>
            newHDWalletProvider HDWalletProvider
              [env.get "PRIV_KEY_DEPLOY", .str "http://127.0.0.1:8545"] st log })] }

/-- Own-key lookup in the `networks` record: the profile written under `name` in the
object literal, if any. Members inherited from `Object.prototype` are not profiles and
are not modelled. -/
def TruffleConfig.network? {σ ε : Type} (cfg : TruffleConfig σ ε) (name : String) :
    Option (NetworkProfile σ ε) :=
  cfg.networks.lookup name

/-- The keys of the `networks` record. -/
def TruffleConfig.networkNames {σ ε : Type} (cfg : TruffleConfig σ ε) : List String :=
  cfg.networks.map Prod.fst

/-- What loading a module leaves behind: its exports, the process environment, the
external state and the call log. -/
structure Loaded (σ ε : Type) where
  exports : TruffleConfig σ ε
  env : ProcessEnv
  state : σ
  log : List Invocation

/-- Loading `truffle-config.js`: `require("dotenv").config()` runs first (a library call
that may extend the environment from a file), then the object literal is built and
exported. -/
def loadTruffleConfig {σ ε : Type} (dotenvConfig : ProcessEnv → σ → ProcessEnv × σ)
    (HDWalletProvider : ProviderClass σ ε) (env : ProcessEnv) (st : σ)
    (log : List Invocation) : Loaded σ ε :=
  let r := dotenvConfig env st
  { exports := truffleConfig HDWalletProvider,
    env := r.1,
    state := r.2,
    log := log ++ [⟨"dotenv.config", []⟩] }

/-! ## Concrete collaborators used to exercise the definitions -/

/-- A deployer whose every call throws. -/
def failingDeployer : Deployer Nat String :=
  { invoke := fun _ _ n => (.error "insufficient funds", n + 1) }

/-- A deployer whose every call returns a handle. -/
def acceptingDeployer : Deployer Nat String :=
  { invoke := fun _ _ n => (.ok (.ref n), n + 1) }

/-- A deployer in the manner of Truffle: every call returns normally, with a promise that
rejects. Thrown values are JavaScript values here. -/
def rejectingDeployer : Deployer Nat JSValue :=
  { invoke := fun _ _ n => (.ok (.promiseRejected (.str "insufficient funds")), n + 1) }

/-- A run fails with `e`: it throws `e`, or it returns a promise that rejects with `e`. -/
def failsWith (r : Except JSValue JSValue) (e : JSValue) : Bool :=
  match r with
  | .error x => x == e
  | .ok (.promiseRejected x) => x == e
  | .ok _ => false

/-- An artifact resolver returning a fixed handle. -/
def sampleArtifacts : String → JSValue := fun _ => .ref 0

/-! ## Properties of the migration -/

/-- Claim C1: for every deployer (and every resolver of artifacts, state and earlier log),
running the migration adds exactly one entry to the call log, the call of `deploy` with
the CompTest artifact, the address kovanDAI and the address kovan_cDAI in this order, and
the deployer is left in the state that this one call leaves it in. -/
theorem migration_issues_single_deploy {σ ε : Type} (artifactsRequire : String → JSValue)
    (deployer : Deployer σ ε) (st : σ) (log : List Invocation) :
    (migration artifactsRequire deployer st log).log =
        log ++ [⟨"deploy", [artifactsRequire "CompTest",
          .str "0x4F96Fe3b7A6Cf9725f59d353F723c1bDb64CA6Aa",
          .str "0xf0d0eb522cfa50b716b3b1604c4f0fa6f04376ad"]⟩] ∧
      (migration artifactsRequire deployer st []).log.length = 1 ∧
      (migration artifactsRequire deployer st log).state =
        (deployer.invoke "deploy" [artifactsRequire "CompTest",
          .str "0x4F96Fe3b7A6Cf9725f59d353F723c1bDb64CA6Aa",
          .str "0xf0d0eb522cfa50b716b3b1604c4f0fa6f04376ad"] st).2 := by
  unfold migration
  refine ⟨?_, ?_, ?_⟩ <;> (dsimp only []; split <;> rfl)

/-- Claim C2: each of kovanDAI and kovan_cDAI is a string of exactly 42 characters made of
the prefix `0x` followed by exactly 40 hexadecimal digits. -/
theorem hardcoded_addresses_well_formed :
    (kovanDAI.length = 42 ∧ kovanDAI.take 2 = "0x" ∧ (kovanDAI.drop 2).length = 40 ∧
        (kovanDAI.drop 2).toList.all isHexDigit = true) ∧
      (kovan_cDAI.length = 42 ∧ kovan_cDAI.take 2 = "0x" ∧ (kovan_cDAI.drop 2).length = 40 ∧
        (kovan_cDAI.drop 2).toList.all isHexDigit = true) := by
  decide

/-- Claim C6, as the code has it: the migration handles no failure itself. When the
`deploy` call throws `e` the migration throws the same `e`; when the call returns any
value `v` the migration returns `undefined` whatever `v` is, and in particular when the
call returns a promise that rejects, the rejection is neither awaited nor returned and the
migration still returns `undefined`; in every case `deploy` was called exactly once (one
log entry, and the state is the one left by that single call). -/
theorem migration_delegates_failure {σ ε : Type} (artifactsRequire : String → JSValue)
    (deployer : Deployer σ ε) (st : σ) (log : List Invocation) :
    (∀ e, (deployer.invoke "deploy"
          [CompTest artifactsRequire, .str kovanDAI, .str kovan_cDAI] st).1 = .error e →
        (migration artifactsRequire deployer st log).result = .error e) ∧
      (∀ v, (deployer.invoke "deploy"
          [CompTest artifactsRequire, .str kovanDAI, .str kovan_cDAI] st).1 = .ok v →
        (migration artifactsRequire deployer st log).result = .ok .undefined) ∧
      (∀ reason, (deployer.invoke "deploy"
          [CompTest artifactsRequire, .str kovanDAI, .str kovan_cDAI] st).1 =
            .ok (.promiseRejected reason) →
        (migration artifactsRequire deployer st log).result = .ok .undefined) ∧
      (migration artifactsRequire deployer st log).log =
        log ++ [⟨"deploy", [CompTest artifactsRequire, .str kovanDAI, .str kovan_cDAI]⟩] ∧
      (migration artifactsRequire deployer st log).state =
        (deployer.invoke "deploy"
          [CompTest artifactsRequire, .str kovanDAI, .str kovan_cDAI] st).2 := by
  refine ⟨?_, ?_, ?_, ?_, ?_⟩
  · intro e h
    simp [migration, callMethod, h]
  · intro v h
    simp [migration, callMethod, h]
  · intro reason h
    simp [migration, callMethod, h]
  · unfold migration
    dsimp only []
    split <;> rfl
  · unfold migration
    dsimp only []
    split <;> rfl

/-- Claim C6 exercised: a deployer that throws makes the migration throw the same error
after one call; a deployer that returns a handle, and one that returns a rejecting
promise, make it return `undefined`. -/
theorem migration_delegates_failure_witness :
    (migration sampleArtifacts failingDeployer 0 []).result = .error "insufficient funds" ∧
      (migration sampleArtifacts acceptingDeployer 0 []).result = .ok .undefined ∧
      (migration sampleArtifacts rejectingDeployer 0 []).result = .ok .undefined ∧
      (migration sampleArtifacts failingDeployer 0 []).log.length = 1 ∧
      (migration sampleArtifacts failingDeployer 0 []).state = 1 :=
  ⟨(migration_delegates_failure sampleArtifacts failingDeployer 0 []).1
      "insufficient funds" rfl,
    (migration_delegates_failure sampleArtifacts acceptingDeployer 0 []).2.1 (.ref 0) rfl,
    (migration_delegates_failure sampleArtifacts rejectingDeployer 0 []).2.2.1
      (.str "insufficient funds") rfl,
    by rw [(migration_delegates_failure sampleArtifacts failingDeployer 0 []).2.2.2.1]; rfl,
    by rw [(migration_delegates_failure sampleArtifacts failingDeployer 0 []).2.2.2.2]; rfl⟩

/-- Claim C6 as worded fails: on a deployer whose `deploy` call fails with the error
`insufficient funds` by returning a promise that rejects with it, the migration calls
`deploy` once and returns `undefined`; it does not fail with that error. Hence failure
of the `deploy` call does not in general make the migration fail with the same error. -/
theorem migration_drops_rejected_promise :
    failsWith (rejectingDeployer.invoke "deploy"
        [CompTest sampleArtifacts, .str kovanDAI, .str kovan_cDAI] 0).1
        (.str "insufficient funds") = true ∧
      (migration sampleArtifacts rejectingDeployer 0 []).result = .ok .undefined ∧
      failsWith (migration sampleArtifacts rejectingDeployer 0 []).result
        (.str "insufficient funds") = false ∧
      (migration sampleArtifacts rejectingDeployer 0 []).log.length = 1 ∧
      ¬ ∀ (deployer : Deployer Nat JSValue) (st : Nat) (e : JSValue),
        failsWith (deployer.invoke "deploy"
          [CompTest sampleArtifacts, .str kovanDAI, .str kovan_cDAI] st).1 e = true →
        failsWith (migration sampleArtifacts deployer st []).result e = true := by
  refine ⟨rfl, rfl, rfl, rfl, ?_⟩
  intro h
  have h1 := h rejectingDeployer 0 (.str "insufficient funds") rfl
  exact absurd h1 (by decide)

/-- Claim C8: kovanDAI and kovan_cDAI differ as strings and still differ once both are
lower-cased. -/
theorem hardcoded_addresses_distinct :
    kovanDAI ≠ kovan_cDAI ∧ kovanDAI.toLower ≠ kovan_cDAI.toLower := by
  refine ⟨by decide, ?_⟩
  simp only [String.toLower, String.map_eq]
  decide

/-! ## Properties of the configuration -/

/-- Claim C3: the network profile named `test` of the exported configuration has host
`127.0.0.1`, port 8545, network id `*` and skipDryRun true. -/
theorem test_profile_literal_fields {σ ε : Type} (HDWalletProvider : ProviderClass σ ε) :
    ((truffleConfig HDWalletProvider).network? "test").map
        (fun p => (p.host, p.port, p.network_id, p.skipDryRun)) =
      some ("127.0.0.1", 8545, "*", true) := by
  rfl

/-- Claim C5: the networks record of the exported configuration has the single key `test`,
and a lookup finds a profile exactly when the name looked up is `test`. -/
theorem networks_only_test {σ ε : Type} (HDWalletProvider : ProviderClass σ ε)
    (name : String) :
    (truffleConfig HDWalletProvider).networkNames = ["test"] ∧
      (((truffleConfig HDWalletProvider).network? name).isSome = true ↔ name = "test") := by
  refine ⟨rfl, ?_⟩
  by_cases h : name = "test"
  · subst h
    simp [truffleConfig, TruffleConfig.network?, List.lookup]
  · have hb : (name == "test") = false := by simpa using h
    simp [truffleConfig, TruffleConfig.network?, List.lookup, hb, h]

/-- Claim C4: the provider of the `test` profile, invoked in any process environment,
runs the HDWalletProvider constructor once on the value of `PRIV_KEY_DEPLOY` in that
environment (`undefined` when unset, the string itself when set) and the URL
`http://127.0.0.1:8545`, and returns what the constructor returns; a second invocation
constructs again; loading the configuration module constructs nothing. -/
theorem provider_factory_constructs {σ ε : Type} (HDWalletProvider : ProviderClass σ ε)
    (dotenvConfig : ProcessEnv → σ → ProcessEnv × σ) :
    ∃ p, (truffleConfig HDWalletProvider).network? "test" = some p ∧
      (∀ env st log,
        (p.provider env st log).log = log ++ [⟨"new HDWalletProvider",
            [env.get "PRIV_KEY_DEPLOY", .str "http://127.0.0.1:8545"]⟩] ∧
          (p.provider env st log).result = (HDWalletProvider.construct
            [env.get "PRIV_KEY_DEPLOY", .str "http://127.0.0.1:8545"] st).1 ∧
          (p.provider env st log).state = (HDWalletProvider.construct
            [env.get "PRIV_KEY_DEPLOY", .str "http://127.0.0.1:8545"] st).2) ∧
      (∀ env : ProcessEnv, env "PRIV_KEY_DEPLOY" = none →
        env.get "PRIV_KEY_DEPLOY" = .undefined) ∧
      (∀ (env : ProcessEnv) (key : String), env "PRIV_KEY_DEPLOY" = some key →
        env.get "PRIV_KEY_DEPLOY" = .str key) ∧
      (∀ env₁ env₂ st log,
        (p.provider env₂ (p.provider env₁ st log).state (p.provider env₁ st log).log).log =
          log ++ [⟨"new HDWalletProvider",
              [env₁.get "PRIV_KEY_DEPLOY", .str "http://127.0.0.1:8545"]⟩,
            ⟨"new HDWalletProvider",
              [env₂.get "PRIV_KEY_DEPLOY", .str "http://127.0.0.1:8545"]⟩]) ∧
      (∀ env st log,
        (loadTruffleConfig dotenvConfig HDWalletProvider env st log).log =
            log ++ [⟨"dotenv.config", []⟩] ∧
          (loadTruffleConfig dotenvConfig HDWalletProvider env st log).state =
            (dotenvConfig env st).2 ∧
          ((loadTruffleConfig dotenvConfig HDWalletProvider env st log).log.filter
              (fun i => i.method == "new HDWalletProvider")).length =
            (log.filter (fun i => i.method == "new HDWalletProvider")).length) := by
  refine ⟨_, rfl, ?_, ?_, ?_, ?_, ?_⟩
  · intro env st log
    exact ⟨rfl, rfl, rfl⟩
  · intro env h
    simp [ProcessEnv.get, h]
  · intro env key h
    simp [ProcessEnv.get, h]
  · intro env₁ env₂ st log
    simp [newHDWalletProvider]
  · intro env st log
    refine ⟨rfl, rfl, ?_⟩
    simp [loadTruffleConfig, List.filter_append]

/-- Claim C7: the URL the provider of the `test` profile hands to the wallet provider is
`http://` followed by the host of the profile, a colon and the port of the profile in
decimal. -/
theorem test_profile_url_consistent {σ ε : Type} (HDWalletProvider : ProviderClass σ ε) :
    ∃ p, (truffleConfig HDWalletProvider).network? "test" = some p ∧
      "http://" ++ p.host ++ ":" ++ toString p.port = "http://127.0.0.1:8545" ∧
      ∀ env st log, ∃ key, (p.provider env st log).log =
        log ++ [⟨"new HDWalletProvider",
          [key, .str ("http://" ++ p.host ++ ":" ++ toString p.port)]⟩] := by
  have hurl : "http://" ++ "127.0.0.1" ++ ":" ++ toString (8545 : Nat) =
      "http://127.0.0.1:8545" := by decide
  refine ⟨_, rfl, hurl, ?_⟩
  intro env st log
  refine ⟨env.get "PRIV_KEY_DEPLOY", ?_⟩
  show (newHDWalletProvider HDWalletProvider _ st log).log = log ++ [⟨"new HDWalletProvider",
    [env.get "PRIV_KEY_DEPLOY",
      .str ("http://" ++ "127.0.0.1" ++ ":" ++ toString (8545 : Nat))]⟩]
  rw [hurl]
  rfl

end CompSave
